import Mathlib

/-!
Verification of the media-processing API client (`src/media_api.py`).

The client is embedded shallowly: each Python method of `MediaAPI` becomes a
Lean function over an explicit HTTP environment `Env : Nat → Request → Response`
(the `Nat` is a per-operation call counter, so consecutive polls of the same
endpoint may observe different responses).  Every function returns the list of
observable events it performs (HTTP calls with their full request data, log
lines, sleeps, file opens/writes) together with an `Outcome`: normal return,
a raised Python error, or `running` when the unbounded polling loop has not
finished within the given fuel.  The unbounded `while True` polling loops of
`transcode` and `diagnose` are modelled with fuel; divergence is the statement
that the outcome is `running` for every fuel.
-/

namespace MediaAPI

/-- JSON values, as produced by `response.json()` and manipulated by the
Python client via dictionary subscripts. -/
inductive Json where
  | null : Json
  | bool (b : Bool) : Json
  | num (n : Int) : Json
  | str (s : String) : Json
  | arr (xs : List Json) : Json
  | obj (fields : List (String × Json)) : Json

/-- Python exceptions the client can raise.
`httpError` is `requests.exceptions.HTTPError` from `raise_for_status`
(its message is built from the status code and reason, not the body);
`exception` is `Exception(response.text)` raised by the explicit
`try/except` wrappers; `keyError`/`typeError` come from dictionary
subscripts on the parsed JSON. -/
inductive PyError where
  | httpError (code : Nat) : PyError
  | exception (payload : String) : PyError
  | keyError (key : String) : PyError
  | typeError : PyError

/-- Python `d[key]` on a parsed JSON value: `KeyError` when the key is absent
from a dict, `TypeError` when subscripting a non-dict with a string key. -/
def Json.pyGetItem : Json → String → Except PyError Json
  | .obj fields, k =>
      match fields.lookup k with
      | some v => .ok v
      | none => .error (.keyError k)
  | _, _ => .error .typeError

/-- Python truthiness of a JSON value (`if job_status and ...`). -/
def pyTruthy : Json → Bool
  | .null => false
  | .bool b => b
  | .num n => n != 0
  | .str s => s != ""
  | .arr xs => !xs.isEmpty
  | .obj fields => !fields.isEmpty

/-- Python `==` between a JSON value and a string literal: only a string
compares equal to a string. -/
def pyEqStr : Json → String → Bool
  | .str s, t => s == t
  | _, _ => false

inductive Method where
  | get : Method
  | post : Method
  | put : Method

/-- An outbound HTTP request as assembled by the `requests` calls in the
source: method, URL, query parameters, optional JSON body (`json=`), the
headers explicitly passed, optional raw data body (`data=`), and whether
`stream=True` was requested. -/
structure Request where
  method : Method
  url : String
  params : List (String × Json)
  jsonBody : Option Json
  headers : List (String × String)
  dataBytes : Option (List Nat)
  stream : Bool

/-- An HTTP response: status code, body text (`response.text`), parsed JSON
body (`response.json()`), raw body bytes (`response.raw`), and the final URL
(`response.url`). -/
structure Response where
  statusCode : Nat
  text : String
  jsonBody : Json
  rawBytes : List Nat
  respUrl : String

/-- `response.raise_for_status()` raises `HTTPError` exactly for 4xx and 5xx
status codes. -/
def raisesForStatus (code : Nat) : Bool :=
  400 ≤ code && code < 600

/-- `MediaAPI.REQUEST_HEADERS`: the static header dictionary attached to the
client's API calls; the API key comes from the environment at startup. -/
def REQUEST_HEADERS (apiKey : String) : List (String × String) :=
  [("x-api-key", apiKey),
   ("Content-Type", "application/json"),
   ("Accept", "application/json")]

/-- Observable events of a run: HTTP calls, `print` log lines (of a plain
string, of a JSON value, or of a label paired with a JSON value),
`time.sleep`, and file system writes (`fileOpenW` is `open(path, "wb")`,
which truncates). -/
inductive Event where
  | httpCall (req : Request) : Event
  | logStr (s : String) : Event
  | logJson (j : Json) : Event
  | logPair (s : String) (j : Json) : Event
  | sleep (seconds : Nat) : Event
  | fileOpenW (path : String) : Event
  | fileWrite (path : String) (bytes : List Nat) : Event

/-- The HTTP world: the response returned to the `t`-th HTTP call of the
operation when that call sends the given request. -/
abbrev Env := Nat → Request → Response

/-- Result of running an operation under some fuel: normal return value,
raised Python error, or still inside the unbounded polling loop. -/
inductive Outcome (α : Type) where
  | ok (a : α) : Outcome α
  | error (e : PyError) : Outcome α
  | running : Outcome α

/-- The request `check_job_status` sends: GET to the endpoint URL with the
`job_id` query parameter and the static headers. -/
def checkJobRequest (apiKey : String) (job_id : Json) (endpoint_url : String) :
    Request :=
  { method := .get
    url := endpoint_url
    params := [("job_id", job_id)]
    jsonBody := none
    headers := REQUEST_HEADERS apiKey
    dataBytes := none
    stream := false }

/-- `MediaAPI.check_job_status`: GET the status endpoint; a 4xx/5xx response
is re-raised as `Exception(response.text)`; otherwise the parsed JSON body is
returned. -/
def check_job_status (env : Env) (t : Nat) (apiKey : String) (job_id : Json)
    (endpoint_url : String) : List Event × Except PyError Json :=
  let req := checkJobRequest apiKey job_id endpoint_url
  let resp := env t req
  if raisesForStatus resp.statusCode then
    ([.httpCall req], .error (.exception resp.text))
  else
    ([.httpCall req], .ok resp.jsonBody)

/-- `shutil.COPY_BUFSIZE` on non-Windows platforms. -/
def COPY_BUFSIZE : Nat := 64 * 1024

/-- The chunks successively read and written by `shutil.copyfileobj`'s copy
loop when reading `src` with a positive buffer length `c`. -/
def copyChunks (c : Nat) (src : List Nat) : List (List Nat) :=
  if h : c = 0 ∨ src = [] then []
  else src.take c :: copyChunks c (src.drop c)
termination_by src.length
decreasing_by
  push_neg at h
  have hc : 0 < c := Nat.pos_of_ne_zero h.1
  have hs : 0 < src.length := List.length_pos.mpr h.2
  simp [List.length_drop]
  omega

/-- `shutil.copyfileobj(fsrc, fdst, length)`: a zero (defaulted) length is
replaced by `COPY_BUFSIZE`, then the source is copied chunk by chunk. -/
def copyfileobj (length : Nat) (src : List Nat) : List (List Nat) :=
  copyChunks (if length = 0 then COPY_BUFSIZE else length) src

/-- The request `download_media` sends: streamed GET to the media output
endpoint with the target URL as the `url` query parameter. -/
def downloadRequest (apiKey : String) (transcoded_media_url : String) :
    Request :=
  { method := .get
    url := "https://api.dolby.com/media/output"
    params := [("url", Json.str transcoded_media_url)]
    jsonBody := none
    headers := REQUEST_HEADERS apiKey
    dataBytes := none
    stream := true }

/-- `MediaAPI.download_media`: streamed GET of the media output endpoint;
`raise_for_status` errors propagate unwrapped; on success the response body is
copied to `output_path` (opened with `"wb"`) by `shutil.copyfileobj`, whose
internal buffer length is the `bufSize` parameter of the model (the source
uses the library default, `bufSize = 0`, which `copyfileobj` replaces by
`COPY_BUFSIZE`). -/
def download_media (env : Env) (t : Nat) (apiKey : String) (bufSize : Nat)
    (output_path : String) (transcoded_media_url : String) :
    List Event × Outcome Unit :=
  let req := downloadRequest apiKey transcoded_media_url
  let resp := env t req
  if raisesForStatus resp.statusCode then
    ([.httpCall req], .error (.httpError resp.statusCode))
  else
    ([.httpCall req,
      .logStr ("\nDownloading from " ++ resp.respUrl ++ " into " ++ output_path),
      .fileOpenW output_path]
      ++ (copyfileobj bufSize resp.rawBytes).map (Event.fileWrite output_path),
     .ok ())

/-- The `while True` polling loop of `MediaAPI.transcode`, with fuel: each
iteration calls `check_job_status` (whose `Exception` on a 4xx/5xx status
response propagates), reads the snapshot's `"status"` entry (whose
`KeyError`/`TypeError` propagates), and either — when the status is truthy and
equals `"Success"` — returns `download_media`, or prints the snapshot, sleeps
10 seconds and retries. -/
def transcodeLoop (env : Env) (apiKey : String) (bufSize : Nat) (job_id : Json)
    (url : String) (transcoded_media_url : String) (output_path : String) :
    Nat → Nat → List Event × Outcome Unit
  | _, 0 => ([], .running)
  | t, fuel + 1 =>
    match check_job_status env t apiKey job_id url with
    | (evs0, .error e) => (evs0, .error e)
    | (evs0, .ok job_response) =>
      match job_response.pyGetItem "status" with
      | .error e => (evs0, .error e)
      | .ok job_status =>
        if pyTruthy job_status && pyEqStr job_status "Success" then
          let r := download_media env (t + 1) apiKey bufSize output_path
            transcoded_media_url
          (evs0 ++ r.1, r.2)
        else
          let r := transcodeLoop env apiKey bufSize job_id url
            transcoded_media_url output_path (t + 1) fuel
          (evs0 ++ [.logJson job_response, .sleep 10] ++ r.1, r.2)

/-- The URL of the transcode endpoint; `transcode` both submits to it and
polls it. -/
def TRANSCODE_URL : String := "https://api.dolby.com/media/transcode"

/-- The job-creation request `transcode` sends: POST of the request body to
the transcode endpoint with the static headers. -/
def transcodeRequest (apiKey : String) (request_body : Json) : Request :=
  { method := .post
    url := TRANSCODE_URL
    params := []
    jsonBody := some request_body
    headers := REQUEST_HEADERS apiKey
    dataBytes := none
    stream := false }

/-- `MediaAPI.transcode`: POST the transcode request; a 4xx/5xx response is
re-raised as `Exception(response.text)`; otherwise `job_id` is read from the
response body (`KeyError` propagates), two log lines are printed, and the
polling loop runs. -/
def transcode (env : Env) (apiKey : String) (bufSize : Nat)
    (transcoded_media_url : String) (output_path : String)
    (request_body : Json) (fuel : Nat) : List Event × Outcome Unit :=
  let req := transcodeRequest apiKey request_body
  let resp := env 0 req
  if raisesForStatus resp.statusCode then
    ([.httpCall req], .error (.exception resp.text))
  else
    match resp.jsonBody.pyGetItem "job_id" with
    | .error e => ([.httpCall req], .error e)
    | .ok job_id =>
      let r := transcodeLoop env apiKey bufSize job_id TRANSCODE_URL
        transcoded_media_url output_path 1 fuel
      ([.httpCall req,
        .logStr "\nTranscoding your media file...",
        .logPair "Job ID: " job_id] ++ r.1, r.2)

/-- The URL of the diagnose endpoint; `diagnose` both submits to it and polls
it. -/
def DIAGNOSE_URL : String := "https://api.dolby.com/media/diagnose"

/-- The job-creation request `diagnose` sends: POST of `{"input": url}` to the
diagnose endpoint with the static headers. -/
def diagnoseRequest (apiKey : String) (dolby_input_url : String) : Request :=
  { method := .post
    url := DIAGNOSE_URL
    params := []
    jsonBody := some (Json.obj [("input", Json.str dolby_input_url)])
    headers := REQUEST_HEADERS apiKey
    dataBytes := none
    stream := false }

/-- The `while True` polling loop of `MediaAPI.diagnose`, with fuel: like
`transcodeLoop`, but on success it prints and returns the snapshot's
`result.media_info` value (`KeyError`/`TypeError` on either lookup
propagates). -/
def diagnoseLoop (env : Env) (apiKey : String) (job_id : Json) (url : String) :
    Nat → Nat → List Event × Outcome Json
  | _, 0 => ([], .running)
  | t, fuel + 1 =>
    match check_job_status env t apiKey job_id url with
    | (evs0, .error e) => (evs0, .error e)
    | (evs0, .ok job_response) =>
      match job_response.pyGetItem "status" with
      | .error e => (evs0, .error e)
      | .ok job_status =>
        if pyTruthy job_status && pyEqStr job_status "Success" then
          match job_response.pyGetItem "result" with
          | .error e => (evs0, .error e)
          | .ok result =>
            match result.pyGetItem "media_info" with
            | .error e => (evs0, .error e)
            | .ok media_info =>
              (evs0 ++ [.logPair "\nMedia Info: " media_info], .ok media_info)
        else
          let r := diagnoseLoop env apiKey job_id url (t + 1) fuel
          (evs0 ++ [.logJson job_response, .sleep 10] ++ r.1, r.2)

/-- `MediaAPI.diagnose`: POST `{"input": url}` to the diagnose endpoint; a
4xx/5xx response raises the bare `HTTPError` (`raise_for_status` here is NOT
wrapped in a `try/except`, unlike `transcode`); otherwise `job_id` is read
from the response body, two log lines are printed, and the polling loop
runs. -/
def diagnose (env : Env) (apiKey : String) (dolby_input_url : String)
    (fuel : Nat) : List Event × Outcome Json :=
  let req := diagnoseRequest apiKey dolby_input_url
  let resp := env 0 req
  if raisesForStatus resp.statusCode then
    ([.httpCall req], .error (.httpError resp.statusCode))
  else
    match resp.jsonBody.pyGetItem "job_id" with
    | .error e => ([.httpCall req], .error e)
    | .ok job_id =>
      let r := diagnoseLoop env apiKey job_id DIAGNOSE_URL 1 fuel
      ([.httpCall req,
        .logStr "\nDiagnosing your media file...",
        .logPair "Job ID: " job_id] ++ r.1, r.2)

/-- The input-registration request `prepare_media` sends: POST of
`{"url": url}` to the media input endpoint with the static headers. -/
def prepareRequest (apiKey : String) (dolby_input_url : String) : Request :=
  { method := .post
    url := "https://api.dolby.com/media/input"
    params := []
    jsonBody := some (Json.obj [("url", Json.str dolby_input_url)])
    headers := REQUEST_HEADERS apiKey
    dataBytes := none
    stream := false }

/-- The presigned upload `prepare_media` sends:
`requests.put(presigned_url, data=input_file)` — no `headers` argument is
passed, so none of the client's static headers are attached. -/
def putRequest (presigned_url : String) (fileBytes : List Nat) : Request :=
  { method := .put
    url := presigned_url
    params := []
    jsonBody := none
    headers := []
    dataBytes := some fileBytes
    stream := false }

/-- `MediaAPI.prepare_media`: POST `{"url": url}` to the media input endpoint
(bare `HTTPError` on 4xx/5xx); read the presigned URL from the response body;
then PUT the bytes of the local file to the presigned URL — note that this
second call passes NO headers argument, so it carries none of the client's
static headers. The PUT's own response is never inspected. -/
def prepare_media (env : Env) (apiKey : String) (file_path : String)
    (dolby_input_url : String) (fileBytes : List Nat) :
    List Event × Outcome Unit :=
  let req := prepareRequest apiKey dolby_input_url
  let resp := env 0 req
  if raisesForStatus resp.statusCode then
    ([.httpCall req], .error (.httpError resp.statusCode))
  else
    match resp.jsonBody.pyGetItem "url" with
    | .error e => ([.httpCall req], .error e)
    | .ok presigned =>
      match presigned with
      | .str presigned_url =>
        ([.httpCall req,
          .logStr ("Uploading " ++ file_path ++ " to " ++ presigned_url),
          .httpCall (putRequest presigned_url fileBytes)], .ok ())
      | _ => ([.httpCall req], .error .typeError)

/-- The contents of the file at `path` after replaying the run's events over
an initial contents `acc`: `fileOpenW` truncates, `fileWrite` appends. -/
def fileContents (path : String) : List Event → List Nat → List Nat
  | [], acc => acc
  | .fileOpenW p :: evs, acc =>
      fileContents path evs (if p = path then [] else acc)
  | .fileWrite p bs :: evs, acc =>
      fileContents path evs (if p = path then acc ++ bs else acc)
  | _ :: evs, acc => fileContents path evs acc

/-- Whether a JSON value is exactly the string `u`. -/
def jsonIsStr : Json → String → Bool
  | .str s, u => s == u
  | _, _ => false

/-- Whether an event is an HTTP call that references the URL `u` — either as
the request URL itself or as the value of one of its query parameters. -/
def mentionsUrl (u : String) : Event → Bool
  | .httpCall r => r.url == u || r.params.any (fun p => jsonIsStr p.2 u)
  | _ => false

/-- The trace produced by `n` consecutive unsuccessful polling iterations
starting at call counter `t`: each iteration is a status GET, a printed
snapshot, and a 10-second sleep. -/
def pollTrace (env : Env) (req : Request) : Nat → Nat → List Event
  | _, 0 => []
  | t, n + 1 =>
    [Event.httpCall req, Event.logJson (env t req).jsonBody, Event.sleep 10]
      ++ pollTrace env req (t + 1) n

/-- The status call at counter `t` yields a 2xx response whose parsed body
has `s` at key `"status"`. -/
def snapshotOk (env : Env) (req : Request) (t : Nat) (s : Json) : Prop :=
  raisesForStatus (env t req).statusCode = false ∧
  (env t req).jsonBody.pyGetItem "status" = .ok s

/-- The status call at counter `t` yields a well-formed snapshot whose status
fails the loop's exit test (it is not the string `"Success"`). -/
def nonSuccessAt (env : Env) (req : Request) (t : Nat) : Prop :=
  ∃ s, snapshotOk env req t s ∧ (pyTruthy s && pyEqStr s "Success") = false

/-- The status call at counter `t` yields a well-formed snapshot whose status
passes the loop's exit test (the string `"Success"`). -/
def successAt (env : Env) (req : Request) (t : Nat) : Prop :=
  ∃ s, snapshotOk env req t s ∧ (pyTruthy s && pyEqStr s "Success") = true

/-- An environment whose every response is 2xx with body
`{"status": "Running", "job_id": "42"}`: jobs submit fine and never leave the
running state. -/
def envRunning : Env := fun _ _ =>
  { statusCode := 200
    text := ""
    jsonBody := Json.obj [("status", Json.str "Running"), ("job_id", Json.str "42")]
    rawBytes := []
    respUrl := "https://api.dolby.com/answer" }

/-- The body text of a rejected submission, `{"error":"invalid url"}`. -/
def INVALID_URL_BODY : String := "\x7b\"error\":\"invalid url\"\x7d"

/-- An environment whose every response is HTTP 422 with body
`{"error":"invalid url"}`. -/
def envErr422 : Env := fun _ _ =>
  { statusCode := 422
    text := INVALID_URL_BODY
    jsonBody := Json.obj [("error", Json.str "invalid url")]
    rawBytes := []
    respUrl := "https://api.dolby.com/answer" }

/-- An environment for a full successful diagnose run: the submission returns
a job id, the first two polls report `Running`, and every later call reports
`Success` with a `result.media_info` payload. -/
def envDiagnoseOk : Env := fun t _ =>
  if t = 0 then
    { statusCode := 200
      text := ""
      jsonBody := Json.obj [("job_id", Json.str "42")]
      rawBytes := []
      respUrl := "https://api.dolby.com/answer" }
  else if t ≤ 2 then
    { statusCode := 200
      text := ""
      jsonBody := Json.obj [("status", Json.str "Running")]
      rawBytes := []
      respUrl := "https://api.dolby.com/answer" }
  else
    { statusCode := 200
      text := ""
      jsonBody := Json.obj
        [("status", Json.str "Success"),
         ("result", Json.obj
           [("media_info", Json.obj [("container", Json.str "mp4")])])]
      rawBytes := []
      respUrl := "https://api.dolby.com/answer" }

/-- An environment for a full successful transcode run: the submission
returns a job id, the first poll reports `Success` (mentioning a result URL in
its `result` field, which the client never reads), and the download GET
returns three bytes. -/
def envTranscodeOk : Env := fun t _ =>
  if t = 0 then
    { statusCode := 200
      text := ""
      jsonBody := Json.obj [("job_id", Json.str "42")]
      rawBytes := []
      respUrl := "https://api.dolby.com/answer" }
  else if t = 1 then
    { statusCode := 200
      text := ""
      jsonBody := Json.obj
        [("status", Json.str "Success"),
         ("result", Json.obj [("url", Json.str "dlb://result-url")])]
      rawBytes := []
      respUrl := "https://api.dolby.com/answer" }
  else
    { statusCode := 200
      text := ""
      jsonBody := Json.null
      rawBytes := [0, 1, 255]
      respUrl := "https://api.dolby.com/media/output/final" }

/-- An environment where the submission succeeds and the first status poll
answers HTTP 500 with the body text `"boom"`. -/
def envPollErr : Env := fun t _ =>
  if t = 0 then
    { statusCode := 200
      text := ""
      jsonBody := Json.obj [("job_id", Json.str "42")]
      rawBytes := []
      respUrl := "https://api.dolby.com/answer" }
  else
    { statusCode := 500
      text := "boom"
      jsonBody := Json.null
      rawBytes := []
      respUrl := "https://api.dolby.com/answer" }

/-- An environment where the submission succeeds but every status response's
body is a dict without a `"status"` key. -/
def envMissingStatus : Env := fun t _ =>
  if t = 0 then
    { statusCode := 200
      text := ""
      jsonBody := Json.obj [("job_id", Json.str "42")]
      rawBytes := []
      respUrl := "https://api.dolby.com/answer" }
  else
    { statusCode := 200
      text := ""
      jsonBody := Json.obj [("state", Json.str "Running")]
      rawBytes := []
      respUrl := "https://api.dolby.com/answer" }

/-- An environment whose every response is 2xx with an empty JSON object as
body: in particular the creation response has no `"job_id"` key. -/
def envMissingJobId : Env := fun _ _ =>
  { statusCode := 200
    text := ""
    jsonBody := Json.obj []
    rawBytes := []
    respUrl := "https://api.dolby.com/answer" }

/-- An environment for `prepare_media`: the input registration returns a
presigned URL; the upload PUT's answer is ignored by the client. -/
def envPrepare : Env := fun _ _ =>
  { statusCode := 200
    text := ""
    jsonBody := Json.obj [("url", Json.str "https://storage.example/presigned")]
    rawBytes := []
    respUrl := "https://api.dolby.com/answer" }

/-! ### Helper lemmas about single steps of the embedded operations -/

theorem check_job_status_ok (env : Env) (t : Nat) (apiKey : String)
    (job_id : Json) (url : String)
    (h : raisesForStatus (env t (checkJobRequest apiKey job_id url)).statusCode
      = false) :
    check_job_status env t apiKey job_id url
      = ([.httpCall (checkJobRequest apiKey job_id url)],
         .ok (env t (checkJobRequest apiKey job_id url)).jsonBody) := by
  simp [check_job_status, h]

theorem check_job_status_raise (env : Env) (t : Nat) (apiKey : String)
    (job_id : Json) (url : String)
    (h : raisesForStatus (env t (checkJobRequest apiKey job_id url)).statusCode
      = true) :
    check_job_status env t apiKey job_id url
      = ([.httpCall (checkJobRequest apiKey job_id url)],
         .error (.exception (env t (checkJobRequest apiKey job_id url)).text)) := by
  simp [check_job_status, h]

theorem transcodeLoop_step_raise (env : Env) (apiKey : String) (bufSize : Nat)
    (job_id : Json) (url tmu out : String) (t fuel : Nat)
    (h : raisesForStatus (env t (checkJobRequest apiKey job_id url)).statusCode
      = true) :
    transcodeLoop env apiKey bufSize job_id url tmu out t (fuel + 1)
      = ([.httpCall (checkJobRequest apiKey job_id url)],
         .error (.exception (env t (checkJobRequest apiKey job_id url)).text)) := by
  simp [transcodeLoop, check_job_status, h]

theorem transcodeLoop_step_badkey (env : Env) (apiKey : String) (bufSize : Nat)
    (job_id : Json) (url tmu out : String) (t fuel : Nat) (e : PyError)
    (h1 : raisesForStatus (env t (checkJobRequest apiKey job_id url)).statusCode
      = false)
    (h2 : (env t (checkJobRequest apiKey job_id url)).jsonBody.pyGetItem "status"
      = .error e) :
    transcodeLoop env apiKey bufSize job_id url tmu out t (fuel + 1)
      = ([.httpCall (checkJobRequest apiKey job_id url)], .error e) := by
  simp [transcodeLoop, check_job_status, h1, h2]

theorem transcodeLoop_step_retry (env : Env) (apiKey : String) (bufSize : Nat)
    (job_id : Json) (url tmu out : String) (t fuel : Nat) (s : Json)
    (h1 : raisesForStatus (env t (checkJobRequest apiKey job_id url)).statusCode
      = false)
    (h2 : (env t (checkJobRequest apiKey job_id url)).jsonBody.pyGetItem "status"
      = .ok s)
    (h3 : (pyTruthy s && pyEqStr s "Success") = false) :
    transcodeLoop env apiKey bufSize job_id url tmu out t (fuel + 1)
      = ([.httpCall (checkJobRequest apiKey job_id url),
          .logJson (env t (checkJobRequest apiKey job_id url)).jsonBody,
          .sleep 10]
          ++ (transcodeLoop env apiKey bufSize job_id url tmu out (t + 1) fuel).1,
         (transcodeLoop env apiKey bufSize job_id url tmu out (t + 1) fuel).2) := by
  simp [transcodeLoop, check_job_status, h1, h2, h3]

theorem transcodeLoop_step_success (env : Env) (apiKey : String) (bufSize : Nat)
    (job_id : Json) (url tmu out : String) (t fuel : Nat) (s : Json)
    (h1 : raisesForStatus (env t (checkJobRequest apiKey job_id url)).statusCode
      = false)
    (h2 : (env t (checkJobRequest apiKey job_id url)).jsonBody.pyGetItem "status"
      = .ok s)
    (h3 : (pyTruthy s && pyEqStr s "Success") = true) :
    transcodeLoop env apiKey bufSize job_id url tmu out t (fuel + 1)
      = ([.httpCall (checkJobRequest apiKey job_id url)]
          ++ (download_media env (t + 1) apiKey bufSize out tmu).1,
         (download_media env (t + 1) apiKey bufSize out tmu).2) := by
  simp [transcodeLoop, check_job_status, h1, h2, h3]

theorem diagnoseLoop_step_raise (env : Env) (apiKey : String) (job_id : Json)
    (url : String) (t fuel : Nat)
    (h : raisesForStatus (env t (checkJobRequest apiKey job_id url)).statusCode
      = true) :
    diagnoseLoop env apiKey job_id url t (fuel + 1)
      = ([.httpCall (checkJobRequest apiKey job_id url)],
         .error (.exception (env t (checkJobRequest apiKey job_id url)).text)) := by
  simp [diagnoseLoop, check_job_status, h]

theorem diagnoseLoop_step_badkey (env : Env) (apiKey : String) (job_id : Json)
    (url : String) (t fuel : Nat) (e : PyError)
    (h1 : raisesForStatus (env t (checkJobRequest apiKey job_id url)).statusCode
      = false)
    (h2 : (env t (checkJobRequest apiKey job_id url)).jsonBody.pyGetItem "status"
      = .error e) :
    diagnoseLoop env apiKey job_id url t (fuel + 1)
      = ([.httpCall (checkJobRequest apiKey job_id url)], .error e) := by
  simp [diagnoseLoop, check_job_status, h1, h2]

theorem diagnoseLoop_step_retry (env : Env) (apiKey : String) (job_id : Json)
    (url : String) (t fuel : Nat) (s : Json)
    (h1 : raisesForStatus (env t (checkJobRequest apiKey job_id url)).statusCode
      = false)
    (h2 : (env t (checkJobRequest apiKey job_id url)).jsonBody.pyGetItem "status"
      = .ok s)
    (h3 : (pyTruthy s && pyEqStr s "Success") = false) :
    diagnoseLoop env apiKey job_id url t (fuel + 1)
      = ([.httpCall (checkJobRequest apiKey job_id url),
          .logJson (env t (checkJobRequest apiKey job_id url)).jsonBody,
          .sleep 10]
          ++ (diagnoseLoop env apiKey job_id url (t + 1) fuel).1,
         (diagnoseLoop env apiKey job_id url (t + 1) fuel).2) := by
  simp [diagnoseLoop, check_job_status, h1, h2, h3]

theorem diagnoseLoop_step_success (env : Env) (apiKey : String) (job_id : Json)
    (url : String) (t fuel : Nat) (s result media_info : Json)
    (h1 : raisesForStatus (env t (checkJobRequest apiKey job_id url)).statusCode
      = false)
    (h2 : (env t (checkJobRequest apiKey job_id url)).jsonBody.pyGetItem "status"
      = .ok s)
    (h3 : (pyTruthy s && pyEqStr s "Success") = true)
    (h4 : (env t (checkJobRequest apiKey job_id url)).jsonBody.pyGetItem "result"
      = .ok result)
    (h5 : result.pyGetItem "media_info" = .ok media_info) :
    diagnoseLoop env apiKey job_id url t (fuel + 1)
      = ([.httpCall (checkJobRequest apiKey job_id url),
          .logPair "\nMedia Info: " media_info],
         .ok media_info) := by
  simp [diagnoseLoop, check_job_status, h1, h2, h3, h4, h5]

/-! ### Behaviour of the polling loops over a whole run -/

theorem transcodeLoop_nonSuccess (env : Env) (apiKey : String) (bufSize : Nat)
    (job_id : Json) (url tmu out : String) :
    ∀ (fuel t : Nat),
      (∀ i, nonSuccessAt env (checkJobRequest apiKey job_id url) (t + i)) →
      transcodeLoop env apiKey bufSize job_id url tmu out t fuel
        = (pollTrace env (checkJobRequest apiKey job_id url) t fuel, .running) := by
  intro fuel
  induction fuel with
  | zero => intro t _; simp [transcodeLoop, pollTrace]
  | succ n ih =>
    intro t H
    have H0 := H 0
    rw [Nat.add_zero] at H0
    obtain ⟨s, ⟨h1, h2⟩, h3⟩ := H0
    have hrec := ih (t + 1) (fun i => by
      have h := H (i + 1)
      rwa [show t + (i + 1) = t + 1 + i by omega] at h)
    rw [transcodeLoop_step_retry env apiKey bufSize job_id url tmu out t n s h1 h2 h3,
      hrec]
    simp [pollTrace]

theorem diagnoseLoop_nonSuccess (env : Env) (apiKey : String) (job_id : Json)
    (url : String) :
    ∀ (fuel t : Nat),
      (∀ i, nonSuccessAt env (checkJobRequest apiKey job_id url) (t + i)) →
      diagnoseLoop env apiKey job_id url t fuel
        = (pollTrace env (checkJobRequest apiKey job_id url) t fuel, .running) := by
  intro fuel
  induction fuel with
  | zero => intro t _; simp [diagnoseLoop, pollTrace]
  | succ n ih =>
    intro t H
    have H0 := H 0
    rw [Nat.add_zero] at H0
    obtain ⟨s, ⟨h1, h2⟩, h3⟩ := H0
    have hrec := ih (t + 1) (fun i => by
      have h := H (i + 1)
      rwa [show t + (i + 1) = t + 1 + i by omega] at h)
    rw [diagnoseLoop_step_retry env apiKey job_id url t n s h1 h2 h3, hrec]
    simp [pollTrace]

theorem transcodeLoop_ok (env : Env) (apiKey : String) (bufSize : Nat)
    (job_id : Json) (url tmu out : String) :
    ∀ (fuel t : Nat) (evs : List Event) (r : Unit),
      transcodeLoop env apiKey bufSize job_id url tmu out t fuel = (evs, .ok r) →
      ∃ i, i < fuel ∧ successAt env (checkJobRequest apiKey job_id url) (t + i) := by
  intro fuel
  induction fuel with
  | zero => intro t evs r h; simp [transcodeLoop] at h
  | succ n ih =>
    intro t evs r h
    by_cases h1 : raisesForStatus
        (env t (checkJobRequest apiKey job_id url)).statusCode = true
    · rw [transcodeLoop_step_raise env apiKey bufSize job_id url tmu out t n h1] at h
      simp at h
    · rw [Bool.not_eq_true] at h1
      cases h2 : (env t (checkJobRequest apiKey job_id url)).jsonBody.pyGetItem
          "status" with
      | error e =>
        rw [transcodeLoop_step_badkey env apiKey bufSize job_id url tmu out t n e
          h1 h2] at h
        simp at h
      | ok s =>
        by_cases h3 : (pyTruthy s && pyEqStr s "Success") = true
        · exact ⟨0, Nat.succ_pos n, by rw [Nat.add_zero]; exact ⟨s, ⟨h1, h2⟩, h3⟩⟩
        · rw [Bool.not_eq_true] at h3
          rw [transcodeLoop_step_retry env apiKey bufSize job_id url tmu out t n s
            h1 h2 h3] at h
          injection h with hevs hout
          obtain ⟨i, hi, hs⟩ := ih (t + 1)
            (transcodeLoop env apiKey bufSize job_id url tmu out (t + 1) n).1 r
            (Prod.ext rfl hout)
          exact ⟨i + 1, by omega, by rwa [show t + (i + 1) = t + 1 + i by omega]⟩

theorem diagnoseLoop_ok (env : Env) (apiKey : String) (job_id : Json)
    (url : String) :
    ∀ (fuel t : Nat) (evs : List Event) (r : Json),
      diagnoseLoop env apiKey job_id url t fuel = (evs, .ok r) →
      ∃ i s result, i < fuel ∧
        snapshotOk env (checkJobRequest apiKey job_id url) (t + i) s ∧
        (pyTruthy s && pyEqStr s "Success") = true ∧
        (env (t + i) (checkJobRequest apiKey job_id url)).jsonBody.pyGetItem
          "result" = .ok result ∧
        result.pyGetItem "media_info" = .ok r := by
  intro fuel
  induction fuel with
  | zero => intro t evs r h; simp [diagnoseLoop] at h
  | succ n ih =>
    intro t evs r h
    by_cases h1 : raisesForStatus
        (env t (checkJobRequest apiKey job_id url)).statusCode = true
    · rw [diagnoseLoop_step_raise env apiKey job_id url t n h1] at h
      simp at h
    · rw [Bool.not_eq_true] at h1
      cases h2 : (env t (checkJobRequest apiKey job_id url)).jsonBody.pyGetItem
          "status" with
      | error e =>
        rw [diagnoseLoop_step_badkey env apiKey job_id url t n e h1 h2] at h
        simp at h
      | ok s =>
        by_cases h3 : (pyTruthy s && pyEqStr s "Success") = true
        · cases h4 : (env t (checkJobRequest apiKey job_id url)).jsonBody.pyGetItem
              "result" with
          | error e =>
            rw [show diagnoseLoop env apiKey job_id url t (n + 1)
                = ([.httpCall (checkJobRequest apiKey job_id url)], .error e) by
              simp [diagnoseLoop, check_job_status, h1, h2, h3, h4]] at h
            simp at h
          | ok result =>
            cases h5 : result.pyGetItem "media_info" with
            | error e =>
              rw [show diagnoseLoop env apiKey job_id url t (n + 1)
                  = ([.httpCall (checkJobRequest apiKey job_id url)], .error e) by
                simp [diagnoseLoop, check_job_status, h1, h2, h3, h4, h5]] at h
              simp at h
            | ok media_info =>
              rw [diagnoseLoop_step_success env apiKey job_id url t n s result
                media_info h1 h2 h3 h4 h5] at h
              injection h with hevs hout
              injection hout with hmi
              refine ⟨0, s, result, Nat.succ_pos n, ?_, h3, ?_, ?_⟩
              · rw [Nat.add_zero]; exact ⟨h1, h2⟩
              · rw [Nat.add_zero]; exact h4
              · rw [hmi] at h5; exact h5
        · rw [Bool.not_eq_true] at h3
          rw [diagnoseLoop_step_retry env apiKey job_id url t n s h1 h2 h3] at h
          injection h with hevs hout
          obtain ⟨i, s', result', hi, hsnap, hcond, hres, hmi⟩ := ih (t + 1)
            (diagnoseLoop env apiKey job_id url (t + 1) n).1 r (Prod.ext rfl hout)
          exact ⟨i + 1, s', result', by omega,
            by rwa [show t + (i + 1) = t + 1 + i by omega],
            hcond,
            by rwa [show t + (i + 1) = t + 1 + i by omega],
            hmi⟩

/-! ### The streamed copy loop and the resulting file contents -/

theorem copyChunks_nil (c : Nat) : copyChunks c [] = [] := by
  rw [copyChunks]
  simp

theorem copyChunks_join (c : Nat) (hc : c ≠ 0) :
    ∀ src : List Nat, (copyChunks c src).flatten = src := by
  have key : ∀ (n : Nat) (src : List Nat), src.length ≤ n →
      (copyChunks c src).flatten = src := by
    intro n
    induction n with
    | zero =>
      intro src hlen
      have hnil : src = [] := List.length_eq_zero.mp (Nat.le_zero.mp hlen)
      subst hnil
      simp [copyChunks_nil]
    | succ n ih =>
      intro src hlen
      rcases src with _ | ⟨b, bs⟩
      · simp [copyChunks_nil]
      · rw [copyChunks, dif_neg (by simp [hc])]
        have hdrop : ((b :: bs).drop c).length ≤ n := by
          simp only [List.length_drop, List.length_cons]
          have hc1 : 1 ≤ c := Nat.one_le_iff_ne_zero.mpr hc
          simp only [List.length_cons] at hlen
          omega
        simp only [List.flatten]
        rw [ih _ hdrop]
        exact List.take_append_drop c (b :: bs)
  intro src
  exact key src.length src (le_refl _)

theorem copyfileobj_join (length : Nat) (src : List Nat) :
    (copyfileobj length src).flatten = src := by
  unfold copyfileobj
  apply copyChunks_join
  by_cases h : length = 0
  · simp [h, COPY_BUFSIZE]
  · simp [h]

theorem fileContents_writes (path : String) :
    ∀ (chunks : List (List Nat)) (acc : List Nat),
      fileContents path (chunks.map (Event.fileWrite path)) acc
        = acc ++ chunks.flatten := by
  intro chunks
  induction chunks with
  | nil => intro acc; simp [fileContents]
  | cons c cs ih =>
    intro acc
    simp [fileContents, ih, List.append_assoc]

/-- The destination file of a completed download contains exactly the bytes
of the response body, whatever the copy buffer length. -/
theorem download_media_fileContents (env : Env) (t : Nat) (apiKey : String)
    (bufSize : Nat) (out tmu : String)
    (h : raisesForStatus (env t (downloadRequest apiKey tmu)).statusCode
      = false) :
    fileContents out (download_media env t apiKey bufSize out tmu).1 []
      = (env t (downloadRequest apiKey tmu)).rawBytes := by
  simp [download_media, h, fileContents, if_pos rfl, fileContents_writes,
    copyfileobj_join]

/-! ### Which requests each operation sends -/

theorem download_media_mem_httpCall (env : Env) (t : Nat) (apiKey : String)
    (bufSize : Nat) (out tmu : String) (r : Request)
    (h : Event.httpCall r ∈ (download_media env t apiKey bufSize out tmu).1) :
    r = downloadRequest apiKey tmu := by
  by_cases hd : raisesForStatus (env t (downloadRequest apiKey tmu)).statusCode
      = true
  · simp [download_media, hd] at h
    exact h
  · rw [Bool.not_eq_true] at hd
    simp [download_media, hd] at h
    exact h

theorem transcodeLoop_mem_httpCall (env : Env) (apiKey : String) (bufSize : Nat)
    (job_id : Json) (url tmu out : String) :
    ∀ (fuel t : Nat) (r : Request),
      Event.httpCall r
        ∈ (transcodeLoop env apiKey bufSize job_id url tmu out t fuel).1 →
      r = checkJobRequest apiKey job_id url ∨ r = downloadRequest apiKey tmu := by
  intro fuel
  induction fuel with
  | zero => intro t r h; simp [transcodeLoop] at h
  | succ n ih =>
    intro t r h
    by_cases h1 : raisesForStatus
        (env t (checkJobRequest apiKey job_id url)).statusCode = true
    · rw [transcodeLoop_step_raise env apiKey bufSize job_id url tmu out t n h1] at h
      simp at h
      exact Or.inl h
    · rw [Bool.not_eq_true] at h1
      cases h2 : (env t (checkJobRequest apiKey job_id url)).jsonBody.pyGetItem
          "status" with
      | error e =>
        rw [transcodeLoop_step_badkey env apiKey bufSize job_id url tmu out t n e
          h1 h2] at h
        simp at h
        exact Or.inl h
      | ok s =>
        by_cases h3 : (pyTruthy s && pyEqStr s "Success") = true
        · rw [transcodeLoop_step_success env apiKey bufSize job_id url tmu out t n s
            h1 h2 h3] at h
          rcases List.mem_append.mp h with h | h
          · simp at h
            exact Or.inl h
          · exact Or.inr
              (download_media_mem_httpCall env (t + 1) apiKey bufSize out tmu r h)
        · rw [Bool.not_eq_true] at h3
          rw [transcodeLoop_step_retry env apiKey bufSize job_id url tmu out t n s
            h1 h2 h3] at h
          rcases List.mem_append.mp h with h | h
          · simp at h
            exact Or.inl h
          · exact ih (t + 1) r h

theorem diagnoseLoop_mem_httpCall (env : Env) (apiKey : String) (job_id : Json)
    (url : String) :
    ∀ (fuel t : Nat) (r : Request),
      Event.httpCall r ∈ (diagnoseLoop env apiKey job_id url t fuel).1 →
      r = checkJobRequest apiKey job_id url := by
  intro fuel
  induction fuel with
  | zero => intro t r h; simp [diagnoseLoop] at h
  | succ n ih =>
    intro t r h
    by_cases h1 : raisesForStatus
        (env t (checkJobRequest apiKey job_id url)).statusCode = true
    · rw [diagnoseLoop_step_raise env apiKey job_id url t n h1] at h
      simp at h
      exact h
    · rw [Bool.not_eq_true] at h1
      cases h2 : (env t (checkJobRequest apiKey job_id url)).jsonBody.pyGetItem
          "status" with
      | error e =>
        rw [diagnoseLoop_step_badkey env apiKey job_id url t n e h1 h2] at h
        simp at h
        exact h
      | ok s =>
        by_cases h3 : (pyTruthy s && pyEqStr s "Success") = true
        · cases h4 : (env t (checkJobRequest apiKey job_id url)).jsonBody.pyGetItem
              "result" with
          | error e =>
            rw [show diagnoseLoop env apiKey job_id url t (n + 1)
                = ([.httpCall (checkJobRequest apiKey job_id url)], .error e) by
              simp [diagnoseLoop, check_job_status, h1, h2, h3, h4]] at h
            simp at h
            exact h
          | ok result =>
            cases h5 : result.pyGetItem "media_info" with
            | error e =>
              rw [show diagnoseLoop env apiKey job_id url t (n + 1)
                  = ([.httpCall (checkJobRequest apiKey job_id url)], .error e) by
                simp [diagnoseLoop, check_job_status, h1, h2, h3, h4, h5]] at h
              simp at h
              exact h
            | ok media_info =>
              rw [diagnoseLoop_step_success env apiKey job_id url t n s result
                media_info h1 h2 h3 h4 h5] at h
              simp at h
              exact h
        · rw [Bool.not_eq_true] at h3
          rw [diagnoseLoop_step_retry env apiKey job_id url t n s h1 h2 h3] at h
          rcases List.mem_append.mp h with h | h
          · simp at h
            exact h
          · exact ih (t + 1) r h

/-! ### Submission steps of the top-level operations -/

theorem transcode_submit_raise (env : Env) (apiKey : String) (bufSize : Nat)
    (tmu out : String) (body : Json) (fuel : Nat)
    (h0 : raisesForStatus (env 0 (transcodeRequest apiKey body)).statusCode
      = true) :
    transcode env apiKey bufSize tmu out body fuel
      = ([.httpCall (transcodeRequest apiKey body)],
         .error (.exception (env 0 (transcodeRequest apiKey body)).text)) := by
  simp [transcode, h0]

theorem transcode_submit_badkey (env : Env) (apiKey : String) (bufSize : Nat)
    (tmu out : String) (body : Json) (fuel : Nat) (e : PyError)
    (h0 : raisesForStatus (env 0 (transcodeRequest apiKey body)).statusCode
      = false)
    (hj : (env 0 (transcodeRequest apiKey body)).jsonBody.pyGetItem "job_id"
      = .error e) :
    transcode env apiKey bufSize tmu out body fuel
      = ([.httpCall (transcodeRequest apiKey body)], .error e) := by
  simp [transcode, h0, hj]

theorem transcode_submit_ok (env : Env) (apiKey : String) (bufSize : Nat)
    (tmu out : String) (body j : Json) (fuel : Nat)
    (h0 : raisesForStatus (env 0 (transcodeRequest apiKey body)).statusCode
      = false)
    (hj : (env 0 (transcodeRequest apiKey body)).jsonBody.pyGetItem "job_id"
      = .ok j) :
    transcode env apiKey bufSize tmu out body fuel
      = ([.httpCall (transcodeRequest apiKey body),
          .logStr "\nTranscoding your media file...",
          .logPair "Job ID: " j]
          ++ (transcodeLoop env apiKey bufSize j TRANSCODE_URL tmu out 1 fuel).1,
         (transcodeLoop env apiKey bufSize j TRANSCODE_URL tmu out 1 fuel).2) := by
  simp [transcode, h0, hj]

theorem diagnose_submit_raise (env : Env) (apiKey : String) (input : String)
    (fuel : Nat)
    (h0 : raisesForStatus (env 0 (diagnoseRequest apiKey input)).statusCode
      = true) :
    diagnose env apiKey input fuel
      = ([.httpCall (diagnoseRequest apiKey input)],
         .error (.httpError (env 0 (diagnoseRequest apiKey input)).statusCode)) := by
  simp [diagnose, h0]

theorem diagnose_submit_badkey (env : Env) (apiKey : String) (input : String)
    (fuel : Nat) (e : PyError)
    (h0 : raisesForStatus (env 0 (diagnoseRequest apiKey input)).statusCode
      = false)
    (hj : (env 0 (diagnoseRequest apiKey input)).jsonBody.pyGetItem "job_id"
      = .error e) :
    diagnose env apiKey input fuel
      = ([.httpCall (diagnoseRequest apiKey input)], .error e) := by
  simp [diagnose, h0, hj]

theorem diagnose_submit_ok (env : Env) (apiKey : String) (input : String)
    (fuel : Nat) (j : Json)
    (h0 : raisesForStatus (env 0 (diagnoseRequest apiKey input)).statusCode
      = false)
    (hj : (env 0 (diagnoseRequest apiKey input)).jsonBody.pyGetItem "job_id"
      = .ok j) :
    diagnose env apiKey input fuel
      = ([.httpCall (diagnoseRequest apiKey input),
          .logStr "\nDiagnosing your media file...",
          .logPair "Job ID: " j]
          ++ (diagnoseLoop env apiKey j DIAGNOSE_URL 1 fuel).1,
         (diagnoseLoop env apiKey j DIAGNOSE_URL 1 fuel).2) := by
  simp [diagnose, h0, hj]

theorem prepare_media_ok (env : Env) (apiKey : String) (fp input : String)
    (fb : List Nat) (presigned_url : String)
    (h0 : raisesForStatus (env 0 (prepareRequest apiKey input)).statusCode
      = false)
    (hu : (env 0 (prepareRequest apiKey input)).jsonBody.pyGetItem "url"
      = .ok (.str presigned_url)) :
    prepare_media env apiKey fp input fb
      = ([.httpCall (prepareRequest apiKey input),
          .logStr ("Uploading " ++ fp ++ " to " ++ presigned_url),
          .httpCall (putRequest presigned_url fb)], .ok ()) := by
  simp [prepare_media, h0, hu]

/-! ### Claims -/

/-- C1: For every job started by `transcode` or `diagnose`, the polling loop
calls the status query repeatedly with a fixed 10-second sleep between
consecutive calls (the trace is exactly `pollTrace`: status GET, printed
snapshot, `sleep 10`, repeated); as long as every observed snapshot's status
is not exactly `"Success"` — whatever its value, including explicit failure
statuses — the loop logs the snapshot and retries, and the outcome is
`running` for EVERY fuel (no timeout, no maximum attempt count); and the loop
returns normally only when a snapshot whose status equals exactly `"Success"`
was observed. -/
theorem poll_loop_retries_forever_until_success (env : Env) (apiKey : String)
    (bufSize : Nat) (tmu out input : String) (body : Json) :
    (∀ j, raisesForStatus (env 0 (transcodeRequest apiKey body)).statusCode
        = false →
      (env 0 (transcodeRequest apiKey body)).jsonBody.pyGetItem "job_id"
        = .ok j →
      (∀ i, nonSuccessAt env (checkJobRequest apiKey j TRANSCODE_URL) (1 + i)) →
      ∀ fuel, transcode env apiKey bufSize tmu out body fuel
        = ([.httpCall (transcodeRequest apiKey body),
            .logStr "\nTranscoding your media file...",
            .logPair "Job ID: " j]
            ++ pollTrace env (checkJobRequest apiKey j TRANSCODE_URL) 1 fuel,
           .running))
    ∧ (∀ j, raisesForStatus (env 0 (diagnoseRequest apiKey input)).statusCode
        = false →
      (env 0 (diagnoseRequest apiKey input)).jsonBody.pyGetItem "job_id"
        = .ok j →
      (∀ i, nonSuccessAt env (checkJobRequest apiKey j DIAGNOSE_URL) (1 + i)) →
      ∀ fuel, diagnose env apiKey input fuel
        = ([.httpCall (diagnoseRequest apiKey input),
            .logStr "\nDiagnosing your media file...",
            .logPair "Job ID: " j]
            ++ pollTrace env (checkJobRequest apiKey j DIAGNOSE_URL) 1 fuel,
           .running))
    ∧ (∀ j (t fuel : Nat) (evs : List Event) (r : Unit),
        transcodeLoop env apiKey bufSize j TRANSCODE_URL tmu out t fuel
          = (evs, .ok r) →
        ∃ i, i < fuel ∧ successAt env (checkJobRequest apiKey j TRANSCODE_URL)
          (t + i))
    ∧ (∀ j (t fuel : Nat) (evs : List Event) (r : Json),
        diagnoseLoop env apiKey j DIAGNOSE_URL t fuel = (evs, .ok r) →
        ∃ i, i < fuel ∧ successAt env (checkJobRequest apiKey j DIAGNOSE_URL)
          (t + i)) := by
  refine ⟨?_, ?_, ?_, ?_⟩
  · intro j h0 hj H fuel
    rw [transcode_submit_ok env apiKey bufSize tmu out body j fuel h0 hj,
      transcodeLoop_nonSuccess env apiKey bufSize j TRANSCODE_URL tmu out fuel 1 H]
  · intro j h0 hj H fuel
    rw [diagnose_submit_ok env apiKey input fuel j h0 hj,
      diagnoseLoop_nonSuccess env apiKey j DIAGNOSE_URL fuel 1 H]
  · intro j t fuel evs r h
    exact transcodeLoop_ok env apiKey bufSize j TRANSCODE_URL tmu out fuel t evs r h
  · intro j t fuel evs r h
    obtain ⟨i, s, result, hi, hsnap, hcond, _, _⟩ :=
      diagnoseLoop_ok env apiKey j DIAGNOSE_URL fuel t evs r h
    exact ⟨i, hi, s, hsnap, hcond⟩

/-- Witness for C1: under an environment that always answers
`{"status": "Running", ...}`, a transcode job polls forever — shown here for
fuel 2: the run is the submission, its two log lines, and two full poll
iterations, with outcome still `running`. -/
theorem poll_loop_retries_forever_until_success_witness :
    transcode envRunning "KEY" 0 "dlb://out.mp4" "out.mp4" (Json.obj []) 2
      = ([.httpCall (transcodeRequest "KEY" (Json.obj [])),
          .logStr "\nTranscoding your media file...",
          .logPair "Job ID: " (Json.str "42")]
          ++ pollTrace envRunning
              (checkJobRequest "KEY" (Json.str "42") TRANSCODE_URL) 1 2,
         .running) :=
  (poll_loop_retries_forever_until_success envRunning "KEY" 0 "dlb://out.mp4"
      "out.mp4" "in" (Json.obj [])).1
    (Json.str "42") rfl rfl
    (fun _ => ⟨Json.str "Running", ⟨rfl, rfl⟩, rfl⟩) 2

/-- C4: A job-creation call (`transcode` or `diagnose`) answered with 2xx has
exactly the `"job_id"` field of the parsed response body extracted (it is the
value printed after `Job ID: `), and every subsequent status poll — every GET
the operation sends to its polling endpoint — carries exactly that value as
its `job_id` query parameter. -/
theorem submit_extracts_and_polls_job_id (env : Env) (apiKey : String)
    (bufSize : Nat) (tmu out input : String) (body j : Json) (fuel : Nat) :
    (raisesForStatus (env 0 (transcodeRequest apiKey body)).statusCode = false →
      (env 0 (transcodeRequest apiKey body)).jsonBody.pyGetItem "job_id"
        = .ok j →
      Event.logPair "Job ID: " j
          ∈ (transcode env apiKey bufSize tmu out body fuel).1
        ∧ ∀ r, Event.httpCall r ∈ (transcode env apiKey bufSize tmu out body fuel).1 →
            r.method = .get → r.url = TRANSCODE_URL →
            r = checkJobRequest apiKey j TRANSCODE_URL)
    ∧ (raisesForStatus (env 0 (diagnoseRequest apiKey input)).statusCode = false →
      (env 0 (diagnoseRequest apiKey input)).jsonBody.pyGetItem "job_id"
        = .ok j →
      Event.logPair "Job ID: " j ∈ (diagnose env apiKey input fuel).1
        ∧ ∀ r, Event.httpCall r ∈ (diagnose env apiKey input fuel).1 →
            r.method = .get →
            r = checkJobRequest apiKey j DIAGNOSE_URL) := by
  constructor
  · intro h0 hj
    rw [transcode_submit_ok env apiKey bufSize tmu out body j fuel h0 hj]
    constructor
    · simp
    · intro r hr hget hurl
      simp only [List.cons_append, List.nil_append, List.mem_cons] at hr
      rcases hr with hr | hr | hr | hr
      · cases hr; simp [transcodeRequest] at hget
      · cases hr
      · cases hr
      · rcases transcodeLoop_mem_httpCall env apiKey bufSize j TRANSCODE_URL tmu
            out fuel 1 r (by simpa using hr) with h | h
        · exact h
        · subst h
          simp [downloadRequest, TRANSCODE_URL] at hurl
  · intro h0 hj
    rw [diagnose_submit_ok env apiKey input fuel j h0 hj]
    constructor
    · simp
    · intro r hr hget
      simp only [List.cons_append, List.nil_append, List.mem_cons] at hr
      rcases hr with hr | hr | hr | hr
      · cases hr; simp [diagnoseRequest] at hget
      · cases hr
      · cases hr
      · exact diagnoseLoop_mem_httpCall env apiKey j DIAGNOSE_URL fuel 1 r
          (by simpa using hr)

/-- Witness for C4: under the always-running environment the extracted job id
`"42"` is printed by the transcode run. -/
theorem submit_extracts_and_polls_job_id_witness :
    Event.logPair "Job ID: " (Json.str "42")
      ∈ (transcode envRunning "KEY" 0 "dlb://out.mp4" "out.mp4" (Json.obj []) 1).1 :=
  ((submit_extracts_and_polls_job_id envRunning "KEY" 0 "dlb://out.mp4" "out.mp4"
      "in" (Json.obj []) (Json.str "42") 1).1 rfl rfl).1

/-- C7: whenever `diagnose` returns normally, the value it returns is exactly
the `media_info` sub-object of the `result` object of the `"Success"` status
snapshot, unchanged. -/
theorem diagnose_returns_media_info (env : Env) (apiKey input : String)
    (fuel : Nat) (evs : List Event) (r : Json)
    (h : diagnose env apiKey input fuel = (evs, .ok r)) :
    ∃ j i s result,
      (env 0 (diagnoseRequest apiKey input)).jsonBody.pyGetItem "job_id"
        = .ok j ∧
      snapshotOk env (checkJobRequest apiKey j DIAGNOSE_URL) (1 + i) s ∧
      (pyTruthy s && pyEqStr s "Success") = true ∧
      (env (1 + i) (checkJobRequest apiKey j DIAGNOSE_URL)).jsonBody.pyGetItem
        "result" = .ok result ∧
      result.pyGetItem "media_info" = .ok r := by
  by_cases h0 : raisesForStatus
      (env 0 (diagnoseRequest apiKey input)).statusCode = true
  · rw [diagnose_submit_raise env apiKey input fuel h0] at h
    simp at h
  · rw [Bool.not_eq_true] at h0
    cases hj : (env 0 (diagnoseRequest apiKey input)).jsonBody.pyGetItem
        "job_id" with
    | error e =>
      rw [diagnose_submit_badkey env apiKey input fuel e h0 hj] at h
      simp at h
    | ok j =>
      rw [diagnose_submit_ok env apiKey input fuel j h0 hj] at h
      injection h with hevs hout
      obtain ⟨i, s, result, _, hsnap, hcond, hres, hmi⟩ :=
        diagnoseLoop_ok env apiKey j DIAGNOSE_URL fuel 1
          (diagnoseLoop env apiKey j DIAGNOSE_URL 1 fuel).1 r (Prod.ext rfl hout)
      exact Exists.intro j (Exists.intro i (Exists.intro s (Exists.intro result
        ⟨rfl, hsnap, hcond, hres, hmi⟩)))

/-- Witness for C7: the spec's polling scenario — submission, two `Running`
snapshots, then `Success` with `result.media_info` — makes `diagnose` return
exactly that `media_info` object. -/
theorem diagnose_returns_media_info_witness :
    ∃ j i s result,
      (envDiagnoseOk 0 (diagnoseRequest "KEY" "dlb://in")).jsonBody.pyGetItem
        "job_id" = .ok j ∧
      snapshotOk envDiagnoseOk (checkJobRequest "KEY" j DIAGNOSE_URL) (1 + i) s ∧
      (pyTruthy s && pyEqStr s "Success") = true ∧
      (envDiagnoseOk (1 + i)
        (checkJobRequest "KEY" j DIAGNOSE_URL)).jsonBody.pyGetItem "result"
        = .ok result ∧
      result.pyGetItem "media_info"
        = .ok (Json.obj [("container", Json.str "mp4")]) :=
  diagnose_returns_media_info envDiagnoseOk "KEY" "dlb://in" 3
    (diagnose envDiagnoseOk "KEY" "dlb://in" 3).1
    (Json.obj [("container", Json.str "mp4")]) rfl

/-- C5: a status-query call inside the polling loop that is answered 4xx/5xx
raises `Exception(response.text)` at once: the iteration's trace is just the
status GET (no log, no sleep, no further poll whatever the remaining fuel),
the loop's outcome is that error, and — third conjunct — it propagates out of
`transcode`, aborting the whole operation. -/
theorem poll_error_propagates (env : Env) (apiKey : String) (bufSize : Nat)
    (j body : Json) (url tmu out : String) (t fuel : Nat) :
    (raisesForStatus (env t (checkJobRequest apiKey j url)).statusCode = true →
      transcodeLoop env apiKey bufSize j url tmu out t (fuel + 1)
        = ([.httpCall (checkJobRequest apiKey j url)],
           .error (.exception (env t (checkJobRequest apiKey j url)).text))
      ∧ diagnoseLoop env apiKey j url t (fuel + 1)
        = ([.httpCall (checkJobRequest apiKey j url)],
           .error (.exception (env t (checkJobRequest apiKey j url)).text)))
    ∧ (raisesForStatus (env 0 (transcodeRequest apiKey body)).statusCode
        = false →
      (env 0 (transcodeRequest apiKey body)).jsonBody.pyGetItem "job_id"
        = .ok j →
      raisesForStatus
        (env 1 (checkJobRequest apiKey j TRANSCODE_URL)).statusCode = true →
      transcode env apiKey bufSize tmu out body (fuel + 1)
        = ([.httpCall (transcodeRequest apiKey body),
            .logStr "\nTranscoding your media file...",
            .logPair "Job ID: " j,
            .httpCall (checkJobRequest apiKey j TRANSCODE_URL)],
           .error (.exception
             (env 1 (checkJobRequest apiKey j TRANSCODE_URL)).text))) := by
  constructor
  · intro he
    exact ⟨transcodeLoop_step_raise env apiKey bufSize j url tmu out t fuel he,
      diagnoseLoop_step_raise env apiKey j url t fuel he⟩
  · intro h0 hj he
    rw [transcode_submit_ok env apiKey bufSize tmu out body j (fuel + 1) h0 hj,
      transcodeLoop_step_raise env apiKey bufSize j TRANSCODE_URL tmu out 1 fuel
        he]
    rfl

/-- Witness for C5: the first status poll answers HTTP 500 with body
`"boom"`; the transcode run is the submission, its log lines and the single
failing poll, aborted with `Exception("boom")`. -/
theorem poll_error_propagates_witness :
    transcode envPollErr "KEY" 0 "dlb://out.mp4" "out.mp4" (Json.obj []) 1
      = ([.httpCall (transcodeRequest "KEY" (Json.obj [])),
          .logStr "\nTranscoding your media file...",
          .logPair "Job ID: " (Json.str "42"),
          .httpCall (checkJobRequest "KEY" (Json.str "42") TRANSCODE_URL)],
         .error (.exception "boom")) :=
  (poll_error_propagates envPollErr "KEY" 0 (Json.str "42") (Json.obj [])
      TRANSCODE_URL "dlb://out.mp4" "out.mp4" 1 0).2 rfl rfl rfl

/-- C10: a 2xx status response whose parsed body is a dict without a
`"status"` key makes the polling loop abort at once with `KeyError` — no log,
no sleep, no retry — and a 2xx creation response whose body is a dict without
a `"job_id"` key aborts `transcode`/`diagnose` right after the submission
call, before any poll or sleep. -/
theorem missing_keys_abort (env : Env) (apiKey : String) (bufSize : Nat)
    (j body : Json) (url tmu out input : String) (t fuel : Nat) :
    (∀ fs, raisesForStatus
        (env t (checkJobRequest apiKey j url)).statusCode = false →
      (env t (checkJobRequest apiKey j url)).jsonBody = Json.obj fs →
      fs.lookup "status" = none →
      transcodeLoop env apiKey bufSize j url tmu out t (fuel + 1)
        = ([.httpCall (checkJobRequest apiKey j url)],
           .error (.keyError "status"))
      ∧ diagnoseLoop env apiKey j url t (fuel + 1)
        = ([.httpCall (checkJobRequest apiKey j url)],
           .error (.keyError "status")))
    ∧ (∀ gs, raisesForStatus
        (env 0 (transcodeRequest apiKey body)).statusCode = false →
      (env 0 (transcodeRequest apiKey body)).jsonBody = Json.obj gs →
      gs.lookup "job_id" = none →
      transcode env apiKey bufSize tmu out body fuel
        = ([.httpCall (transcodeRequest apiKey body)],
           .error (.keyError "job_id")))
    ∧ (∀ gs, raisesForStatus
        (env 0 (diagnoseRequest apiKey input)).statusCode = false →
      (env 0 (diagnoseRequest apiKey input)).jsonBody = Json.obj gs →
      gs.lookup "job_id" = none →
      diagnose env apiKey input fuel
        = ([.httpCall (diagnoseRequest apiKey input)],
           .error (.keyError "job_id"))) := by
  refine ⟨?_, ?_, ?_⟩
  · intro fs h1 hobj hlk
    have hst : (env t (checkJobRequest apiKey j url)).jsonBody.pyGetItem "status"
        = .error (.keyError "status") := by
      rw [hobj]; simp [Json.pyGetItem, hlk]
    exact ⟨transcodeLoop_step_badkey env apiKey bufSize j url tmu out t fuel _
        h1 hst,
      diagnoseLoop_step_badkey env apiKey j url t fuel _ h1 hst⟩
  · intro gs h0 hobj hlk
    have hjb : (env 0 (transcodeRequest apiKey body)).jsonBody.pyGetItem "job_id"
        = .error (.keyError "job_id") := by
      rw [hobj]; simp [Json.pyGetItem, hlk]
    exact transcode_submit_badkey env apiKey bufSize tmu out body fuel _ h0 hjb
  · intro gs h0 hobj hlk
    have hjb : (env 0 (diagnoseRequest apiKey input)).jsonBody.pyGetItem "job_id"
        = .error (.keyError "job_id") := by
      rw [hobj]; simp [Json.pyGetItem, hlk]
    exact diagnose_submit_badkey env apiKey input fuel _ h0 hjb

/-- Witness for C10: a snapshot body `{"state": "Running"}` (no `"status"`
key) aborts the loop with `KeyError("status")`; a creation body `{}` aborts
`transcode` and `diagnose` with `KeyError("job_id")`. -/
theorem missing_keys_abort_witness :
    (transcodeLoop envMissingStatus "KEY" 0 (Json.str "42") TRANSCODE_URL
        "dlb://out.mp4" "out.mp4" 1 1
      = ([.httpCall (checkJobRequest "KEY" (Json.str "42") TRANSCODE_URL)],
         .error (.keyError "status")))
    ∧ (transcode envMissingJobId "KEY" 0 "dlb://out.mp4" "out.mp4"
        (Json.obj []) 5
      = ([.httpCall (transcodeRequest "KEY" (Json.obj []))],
         .error (.keyError "job_id")))
    ∧ (diagnose envMissingJobId "KEY" "dlb://in" 5
      = ([.httpCall (diagnoseRequest "KEY" "dlb://in")],
         .error (.keyError "job_id"))) :=
  ⟨((missing_keys_abort envMissingStatus "KEY" 0 (Json.str "42") (Json.obj [])
      TRANSCODE_URL "dlb://out.mp4" "out.mp4" "in" 1 0).1
      [("state", Json.str "Running")] rfl rfl rfl).1,
   (missing_keys_abort envMissingJobId "KEY" 0 (Json.str "42") (Json.obj [])
      TRANSCODE_URL "dlb://out.mp4" "out.mp4" "in" 0 5).2.1 [] rfl rfl rfl,
   (missing_keys_abort envMissingJobId "KEY" 0 (Json.str "42") (Json.obj [])
      TRANSCODE_URL "dlb://out.mp4" "out.mp4" "dlb://in" 0 5).2.2 [] rfl rfl rfl⟩

/-- C8: a completed download leaves in the destination file exactly the
bytes of the response body, byte for byte, whatever the streaming copy
buffer length (including the defaulted length 0, which `copyfileobj`
replaces by `COPY_BUFSIZE`). -/
theorem download_byte_identical (env : Env) (t : Nat) (apiKey : String)
    (bufSize : Nat) (out tmu : String)
    (h : raisesForStatus (env t (downloadRequest apiKey tmu)).statusCode
      = false) :
    (download_media env t apiKey bufSize out tmu).2 = .ok ()
    ∧ fileContents out (download_media env t apiKey bufSize out tmu).1 []
        = (env t (downloadRequest apiKey tmu)).rawBytes :=
  ⟨by simp [download_media, h],
   download_media_fileContents env t apiKey bufSize out tmu h⟩

/-- Witness for C8: the three-byte download body `[0, 1, 255]` ends up
byte-identical in the destination file. -/
theorem download_byte_identical_witness :
    raisesForStatus
      (envTranscodeOk 2 (downloadRequest "KEY" "dlb://out.mp4")).statusCode
      = false
    ∧ fileContents "out.mp4"
        (download_media envTranscodeOk 2 "KEY" 0 "out.mp4" "dlb://out.mp4").1 []
        = [0, 1, 255] :=
  ⟨rfl,
   (download_byte_identical envTranscodeOk 2 "KEY" 0 "out.mp4" "dlb://out.mp4"
     rfl).2⟩

/-- Counterexample for C2: `diagnose`'s submission does not wrap
`raise_for_status` in a `try/except`, so a 422 creation response makes it
raise the bare `HTTPError` — an error that does not carry the response body
text `{"error":"invalid url"}` as its payload. -/
theorem non2xx_error_payload_cx :
    (diagnose envErr422 "KEY" "dlb://in" 1).2
      = .error (.httpError 422)
    ∧ raisesForStatus
        (envErr422 0 (diagnoseRequest "KEY" "dlb://in")).statusCode = true
    ∧ (envErr422 0 (diagnoseRequest "KEY" "dlb://in")).text = INVALID_URL_BODY
    ∧ PyError.httpError 422 ≠ PyError.exception INVALID_URL_BODY :=
  ⟨rfl, rfl, rfl, fun h => PyError.noConfusion h⟩

/-- C2 (amended): for `transcode`'s submission and for `check_job_status`, a
4xx/5xx response raises an error whose payload equals the raw response body
text; `diagnose`'s submission instead raises the bare HTTP status error,
which carries the status code, not the body text. -/
theorem non2xx_error_payloads (env : Env) (t : Nat) (apiKey : String)
    (j body : Json) (url tmu out input : String) (bufSize fuel : Nat) :
    (raisesForStatus (env t (checkJobRequest apiKey j url)).statusCode = true →
      (check_job_status env t apiKey j url).2
        = .error (.exception (env t (checkJobRequest apiKey j url)).text))
    ∧ (raisesForStatus (env 0 (transcodeRequest apiKey body)).statusCode
        = true →
      (transcode env apiKey bufSize tmu out body fuel).2
        = .error (.exception (env 0 (transcodeRequest apiKey body)).text))
    ∧ (raisesForStatus (env 0 (diagnoseRequest apiKey input)).statusCode
        = true →
      (diagnose env apiKey input fuel).2
        = .error (.httpError
            (env 0 (diagnoseRequest apiKey input)).statusCode)) := by
  refine ⟨?_, ?_, ?_⟩
  · intro h
    rw [check_job_status_raise env t apiKey j url h]
  · intro h
    rw [transcode_submit_raise env apiKey bufSize tmu out body fuel h]
  · intro h
    rw [diagnose_submit_raise env apiKey input fuel h]

/-- Witness for C2 (amended): on a 422 answer, `check_job_status` raises
`Exception` carrying exactly the body text, and `transcode`'s submission does
the same. -/
theorem non2xx_error_payloads_witness :
    (check_job_status envErr422 0 "KEY" (Json.str "42") TRANSCODE_URL).2
      = .error (.exception INVALID_URL_BODY)
    ∧ (transcode envErr422 "KEY" 0 "dlb://out.mp4" "out.mp4" (Json.obj []) 3).2
      = .error (.exception INVALID_URL_BODY) :=
  ⟨(non2xx_error_payloads envErr422 0 "KEY" (Json.str "42") (Json.obj [])
      TRANSCODE_URL "dlb://out.mp4" "out.mp4" "in" 0 3).1 rfl,
   (non2xx_error_payloads envErr422 0 "KEY" (Json.str "42") (Json.obj [])
      TRANSCODE_URL "dlb://out.mp4" "out.mp4" "in" 0 3).2.1 rfl⟩

/-- Counterexample for C6: a 422 creation response with body
`{"error":"invalid url"}` makes `diagnose` abort — no job id, no poll, no
sleep (the trace is the lone submission call) — but the raised error is the
bare `HTTPError`, not an error containing the body text. -/
theorem submit_error_no_poll_cx :
    diagnose envErr422 "KEY" "dlb://in" 5
      = ([Event.httpCall (diagnoseRequest "KEY" "dlb://in")],
         .error (.httpError 422))
    ∧ PyError.exception INVALID_URL_BODY ≠ PyError.httpError 422 :=
  ⟨rfl, fun h => PyError.noConfusion h⟩

/-- C6 (amended): a 4xx/5xx job-creation response aborts the operation at
once: no job identifier is produced and no status poll or sleep is ever
performed (the trace is exactly the submission call). `transcode` raises an
error whose payload is the exact response body text; `diagnose` raises the
bare HTTP status error instead. -/
theorem submit_error_aborts (env : Env) (apiKey : String)
    (bufSize fuel : Nat) (tmu out input : String) (body : Json) :
    (raisesForStatus (env 0 (transcodeRequest apiKey body)).statusCode = true →
      transcode env apiKey bufSize tmu out body fuel
        = ([.httpCall (transcodeRequest apiKey body)],
           .error (.exception (env 0 (transcodeRequest apiKey body)).text)))
    ∧ (raisesForStatus (env 0 (diagnoseRequest apiKey input)).statusCode
        = true →
      diagnose env apiKey input fuel
        = ([.httpCall (diagnoseRequest apiKey input)],
           .error (.httpError
             (env 0 (diagnoseRequest apiKey input)).statusCode))) := by
  constructor
  · intro h
    exact transcode_submit_raise env apiKey bufSize tmu out body fuel h
  · intro h
    exact diagnose_submit_raise env apiKey input fuel h

/-- Witness for C6 (amended): the 422 submission answer with body
`{"error":"invalid url"}` aborts `transcode` with that exact body text as the
error payload, with no poll and no sleep in the trace. -/
theorem submit_error_aborts_witness :
    transcode envErr422 "KEY" 0 "dlb://out.mp4" "out.mp4" (Json.obj []) 7
      = ([Event.httpCall (transcodeRequest "KEY" (Json.obj []))],
         .error (.exception INVALID_URL_BODY)) :=
  (submit_error_aborts envErr422 "KEY" 0 7 "dlb://out.mp4" "out.mp4" "in"
    (Json.obj [])).1 rfl

theorem copyChunks_small (c : Nat) (src : List Nat) (hc : c ≠ 0)
    (hs : src ≠ []) (hlen : src.length ≤ c) : copyChunks c src = [src] := by
  rw [copyChunks, dif_neg (by simp [hc, hs]),
    List.take_of_length_le hlen, List.drop_eq_nil_of_le hlen, copyChunks_nil]

theorem check_job_status_fst (env : Env) (t : Nat) (apiKey : String)
    (j : Json) (url : String) :
    (check_job_status env t apiKey j url).1
      = [.httpCall (checkJobRequest apiKey j url)] := by
  by_cases h : raisesForStatus
      (env t (checkJobRequest apiKey j url)).statusCode = true
  · rw [check_job_status_raise env t apiKey j url h]
  · rw [Bool.not_eq_true] at h
    rw [check_job_status_ok env t apiKey j url h]

/-- Counterexample for C3: a transcode run whose `"Success"` snapshot carries
the result URL `dlb://result-url`, while the caller passed
`transcoded_media_url = dlb://caller-url`. The run completes, yet NO HTTP
call of the whole run references the result URL returned by the status query
— the download GET instead carries the caller-supplied URL as its `url`
parameter. -/
theorem transcode_ignores_result_url_cx :
    (transcode envTranscodeOk "KEY" 0 "dlb://caller-url" "out.mp4"
        (Json.obj []) 1).2 = .ok ()
    ∧ (envTranscodeOk 1
        (checkJobRequest "KEY" (Json.str "42") TRANSCODE_URL)).jsonBody.pyGetItem
        "result" = .ok (Json.obj [("url", Json.str "dlb://result-url")])
    ∧ (transcode envTranscodeOk "KEY" 0 "dlb://caller-url" "out.mp4"
        (Json.obj []) 1).1.any (mentionsUrl "dlb://result-url") = false
    ∧ (transcode envTranscodeOk "KEY" 0 "dlb://caller-url" "out.mp4"
        (Json.obj []) 1).1.any (mentionsUrl "dlb://caller-url") = true := by
  have hcc : copyfileobj 0 [0, 1, 255] = [[0, 1, 255]] := by
    rw [copyfileobj, if_pos rfl]
    exact copyChunks_small COPY_BUFSIZE [0, 1, 255] (by decide) (by decide)
      (by decide)
  have hdl : download_media envTranscodeOk 2 "KEY" 0 "out.mp4" "dlb://caller-url"
      = ([.httpCall (downloadRequest "KEY" "dlb://caller-url"),
          .logStr "\nDownloading from https://api.dolby.com/media/output/final into out.mp4",
          .fileOpenW "out.mp4",
          .fileWrite "out.mp4" [0, 1, 255]], .ok ()) := by
    have h200 : raisesForStatus
        (envTranscodeOk 2 (downloadRequest "KEY" "dlb://caller-url")).statusCode
        = false := rfl
    have hbytes : (envTranscodeOk 2
        (downloadRequest "KEY" "dlb://caller-url")).rawBytes = [0, 1, 255] := rfl
    simp only [download_media, h200, Bool.false_eq_true, if_false, hbytes, hcc]
    rfl
  have htr : transcode envTranscodeOk "KEY" 0 "dlb://caller-url" "out.mp4"
      (Json.obj []) 1
      = ([.httpCall (transcodeRequest "KEY" (Json.obj [])),
          .logStr "\nTranscoding your media file...",
          .logPair "Job ID: " (Json.str "42"),
          .httpCall (checkJobRequest "KEY" (Json.str "42") TRANSCODE_URL),
          .httpCall (downloadRequest "KEY" "dlb://caller-url"),
          .logStr "\nDownloading from https://api.dolby.com/media/output/final into out.mp4",
          .fileOpenW "out.mp4",
          .fileWrite "out.mp4" [0, 1, 255]], .ok ()) := by
    rw [transcode_submit_ok envTranscodeOk "KEY" 0 "dlb://caller-url" "out.mp4"
        (Json.obj []) (Json.str "42") 1 rfl rfl,
      transcodeLoop_step_success envTranscodeOk "KEY" 0 (Json.str "42")
        TRANSCODE_URL "dlb://caller-url" "out.mp4" 1 0 (Json.str "Success")
        rfl rfl rfl,
      hdl]
    rfl
  exact ⟨by rw [htr], rfl, by rw [htr]; rfl, by rw [htr]; rfl⟩

/-- C3 (amended): when a transcode status poll observes a `"Success"`
snapshot and the download GET is answered 2xx, the client performs a streamed
(`stream = true`) GET of the media output endpoint with the CALLER-SUPPLIED
`transcoded_media_url` as the `url` query parameter (the status response's
result field is never consulted), and writes the response body to the
caller-specified destination path. -/
theorem transcode_success_streams_download (env : Env) (apiKey : String)
    (bufSize : Nat) (j : Json) (url tmu out : String) (t fuel : Nat) (s : Json)
    (h1 : raisesForStatus (env t (checkJobRequest apiKey j url)).statusCode
      = false)
    (h2 : (env t (checkJobRequest apiKey j url)).jsonBody.pyGetItem "status"
      = .ok s)
    (h3 : (pyTruthy s && pyEqStr s "Success") = true)
    (hd : raisesForStatus
      (env (t + 1) (downloadRequest apiKey tmu)).statusCode = false) :
    transcodeLoop env apiKey bufSize j url tmu out t (fuel + 1)
      = ([.httpCall (checkJobRequest apiKey j url),
          .httpCall (downloadRequest apiKey tmu),
          .logStr ("\nDownloading from "
            ++ (env (t + 1) (downloadRequest apiKey tmu)).respUrl
            ++ " into " ++ out),
          .fileOpenW out]
          ++ (copyfileobj bufSize
              (env (t + 1) (downloadRequest apiKey tmu)).rawBytes).map
              (Event.fileWrite out),
         .ok ())
    ∧ (downloadRequest apiKey tmu).method = .get
    ∧ (downloadRequest apiKey tmu).stream = true
    ∧ (downloadRequest apiKey tmu).url = "https://api.dolby.com/media/output"
    ∧ (downloadRequest apiKey tmu).params = [("url", Json.str tmu)]
    ∧ fileContents out
        (transcodeLoop env apiKey bufSize j url tmu out t (fuel + 1)).1 []
        = (env (t + 1) (downloadRequest apiKey tmu)).rawBytes := by
  have hdl : download_media env (t + 1) apiKey bufSize out tmu
      = ([.httpCall (downloadRequest apiKey tmu),
          .logStr ("\nDownloading from "
            ++ (env (t + 1) (downloadRequest apiKey tmu)).respUrl
            ++ " into " ++ out),
          .fileOpenW out]
          ++ (copyfileobj bufSize
              (env (t + 1) (downloadRequest apiKey tmu)).rawBytes).map
              (Event.fileWrite out),
         .ok ()) := by
    simp [download_media, hd]
  have hfull : transcodeLoop env apiKey bufSize j url tmu out t (fuel + 1)
      = ([.httpCall (checkJobRequest apiKey j url),
          .httpCall (downloadRequest apiKey tmu),
          .logStr ("\nDownloading from "
            ++ (env (t + 1) (downloadRequest apiKey tmu)).respUrl
            ++ " into " ++ out),
          .fileOpenW out]
          ++ (copyfileobj bufSize
              (env (t + 1) (downloadRequest apiKey tmu)).rawBytes).map
              (Event.fileWrite out),
         .ok ()) := by
    rw [transcodeLoop_step_success env apiKey bufSize j url tmu out t fuel s
      h1 h2 h3, hdl]
    rfl
  refine ⟨hfull, rfl, rfl, rfl, rfl, ?_⟩
  rw [hfull]
  simp [fileContents, fileContents_writes, copyfileobj_join]

/-- Witness for C3 (amended): the concrete successful run — `"Success"`
snapshot at the first poll, 2xx download of three bytes — produces exactly
the download GET of the media output endpoint followed by the file write. -/
theorem transcode_success_streams_download_witness :
    transcodeLoop envTranscodeOk "KEY" 0 (Json.str "42") TRANSCODE_URL
        "dlb://out.mp4" "out.mp4" 1 1
      = ([.httpCall (checkJobRequest "KEY" (Json.str "42") TRANSCODE_URL),
          .httpCall (downloadRequest "KEY" "dlb://out.mp4"),
          .logStr "\nDownloading from https://api.dolby.com/media/output/final into out.mp4",
          .fileOpenW "out.mp4"]
          ++ (copyfileobj 0 [0, 1, 255]).map (Event.fileWrite "out.mp4"),
         .ok ()) :=
  (transcode_success_streams_download envTranscodeOk "KEY" 0 (Json.str "42")
    TRANSCODE_URL "dlb://out.mp4" "out.mp4" 1 0 (Json.str "Success")
    rfl rfl rfl rfl).1

/-- Counterexample for C9: `prepare_media`'s presigned upload PUT —
`requests.put(presigned_url, data=input_file)` — passes no headers at all, so
this outbound call carries neither the `x-api-key` credential nor the
JSON content-type/accept headers. -/
theorem presigned_put_without_headers_cx :
    prepare_media envPrepare "KEY" "video.mp4" "https://example.com/video.mp4"
        [7, 7]
      = ([Event.httpCall (prepareRequest "KEY" "https://example.com/video.mp4"),
          Event.logStr "Uploading video.mp4 to https://storage.example/presigned",
          Event.httpCall (putRequest "https://storage.example/presigned" [7, 7])],
         .ok ())
    ∧ (putRequest "https://storage.example/presigned" [7, 7]).headers = []
    ∧ REQUEST_HEADERS "KEY" ≠ [] := by
  refine ⟨rfl, rfl, ?_⟩
  intro h
  simp [REQUEST_HEADERS] at h

/-- C9 (amended): every outbound HTTP call of `check_job_status`,
`download_media`, `transcode` and `diagnose`, and `prepare_media`'s
input-registration POST, carries exactly the static `REQUEST_HEADERS`
(`x-api-key` credential, `Content-Type: application/json`,
`Accept: application/json`); the one exception is `prepare_media`'s presigned
upload PUT, which carries no headers at all. -/
theorem outbound_request_headers (env : Env) (apiKey : String)
    (t bufSize fuel : Nat) (j body : Json) (url tmu out input fp : String)
    (fb : List Nat) :
    (∀ r, Event.httpCall r ∈ (check_job_status env t apiKey j url).1 →
      r.headers = REQUEST_HEADERS apiKey)
    ∧ (∀ r, Event.httpCall r ∈ (download_media env t apiKey bufSize out tmu).1 →
      r.headers = REQUEST_HEADERS apiKey)
    ∧ (∀ r, Event.httpCall r
        ∈ (transcode env apiKey bufSize tmu out body fuel).1 →
      r.headers = REQUEST_HEADERS apiKey)
    ∧ (∀ r, Event.httpCall r ∈ (diagnose env apiKey input fuel).1 →
      r.headers = REQUEST_HEADERS apiKey)
    ∧ (∀ r, Event.httpCall r ∈ (prepare_media env apiKey fp input fb).1 →
      (r.method ≠ .put → r.headers = REQUEST_HEADERS apiKey)
      ∧ (r.method = .put → r.headers = [])) := by
  refine ⟨?_, ?_, ?_, ?_, ?_⟩
  · intro r hr
    rw [check_job_status_fst] at hr
    simp at hr
    subst hr
    rfl
  · intro r hr
    have h := download_media_mem_httpCall env t apiKey bufSize out tmu r hr
    subst h
    rfl
  · intro r hr
    by_cases h0 : raisesForStatus
        (env 0 (transcodeRequest apiKey body)).statusCode = true
    · rw [transcode_submit_raise env apiKey bufSize tmu out body fuel h0] at hr
      simp at hr
      subst hr
      rfl
    · rw [Bool.not_eq_true] at h0
      cases hj : (env 0 (transcodeRequest apiKey body)).jsonBody.pyGetItem
          "job_id" with
      | error e =>
        rw [transcode_submit_badkey env apiKey bufSize tmu out body fuel e h0
          hj] at hr
        simp at hr
        subst hr
        rfl
      | ok j' =>
        rw [transcode_submit_ok env apiKey bufSize tmu out body j' fuel h0
          hj] at hr
        simp only [List.cons_append, List.nil_append, List.mem_cons] at hr
        rcases hr with hr | hr | hr | hr
        · cases hr; rfl
        · cases hr
        · cases hr
        · rcases transcodeLoop_mem_httpCall env apiKey bufSize j' TRANSCODE_URL
              tmu out fuel 1 r (by simpa using hr) with h | h
          · subst h; rfl
          · subst h; rfl
  · intro r hr
    by_cases h0 : raisesForStatus
        (env 0 (diagnoseRequest apiKey input)).statusCode = true
    · rw [diagnose_submit_raise env apiKey input fuel h0] at hr
      simp at hr
      subst hr
      rfl
    · rw [Bool.not_eq_true] at h0
      cases hj : (env 0 (diagnoseRequest apiKey input)).jsonBody.pyGetItem
          "job_id" with
      | error e =>
        rw [diagnose_submit_badkey env apiKey input fuel e h0 hj] at hr
        simp at hr
        subst hr
        rfl
      | ok j' =>
        rw [diagnose_submit_ok env apiKey input fuel j' h0 hj] at hr
        simp only [List.cons_append, List.nil_append, List.mem_cons] at hr
        rcases hr with hr | hr | hr | hr
        · cases hr; rfl
        · cases hr
        · cases hr
        · have h := diagnoseLoop_mem_httpCall env apiKey j' DIAGNOSE_URL fuel 1
            r (by simpa using hr)
          subst h
          rfl
  · intro r hr
    by_cases h0 : raisesForStatus
        (env 0 (prepareRequest apiKey input)).statusCode = true
    · simp [prepare_media, h0] at hr
      subst hr
      exact ⟨fun _ => rfl, fun hp => by simp [prepareRequest] at hp⟩
    · rw [Bool.not_eq_true] at h0
      cases hu : (env 0 (prepareRequest apiKey input)).jsonBody.pyGetItem
          "url" with
      | error e =>
        simp [prepare_media, h0, hu] at hr
        subst hr
        exact ⟨fun _ => rfl, fun hp => by simp [prepareRequest] at hp⟩
      | ok presigned =>
        cases presigned with
        | str pu =>
          rw [prepare_media_ok env apiKey fp input fb pu h0 hu] at hr
          simp at hr
          rcases hr with hr | hr
          · subst hr
            exact ⟨fun _ => rfl, fun hp => by simp [prepareRequest] at hp⟩
          · subst hr
            exact ⟨fun hne => absurd rfl hne, fun _ => rfl⟩
        | null =>
          simp [prepare_media, h0, hu] at hr
          subst hr
          exact ⟨fun _ => rfl, fun hp => by simp [prepareRequest] at hp⟩
        | bool b =>
          simp [prepare_media, h0, hu] at hr
          subst hr
          exact ⟨fun _ => rfl, fun hp => by simp [prepareRequest] at hp⟩
        | num n =>
          simp [prepare_media, h0, hu] at hr
          subst hr
          exact ⟨fun _ => rfl, fun hp => by simp [prepareRequest] at hp⟩
        | arr xs =>
          simp [prepare_media, h0, hu] at hr
          subst hr
          exact ⟨fun _ => rfl, fun hp => by simp [prepareRequest] at hp⟩
        | obj fs =>
          simp [prepare_media, h0, hu] at hr
          subst hr
          exact ⟨fun _ => rfl, fun hp => by simp [prepareRequest] at hp⟩

/-- Witness for C9 (amended): the status GET sent by `check_job_status`
carries exactly the static headers. -/
theorem outbound_request_headers_witness :
    (checkJobRequest "KEY" (Json.str "42") TRANSCODE_URL).headers
      = REQUEST_HEADERS "KEY" :=
  (outbound_request_headers envRunning "KEY" 0 0 0 (Json.str "42")
      (Json.obj []) TRANSCODE_URL "dlb://out.mp4" "out.mp4" "in" "video.mp4"
      []).1
    (checkJobRequest "KEY" (Json.str "42") TRANSCODE_URL)
    (by rw [check_job_status_fst]; exact List.mem_singleton.mpr rfl)

end MediaAPI
